import Mathlib

/-!
Verification of the projection and decision engine of the NBA prediction app
(`src/app.py`).  The statistical pipeline of the app is embedded shallowly:
pandas game-log rows become lists of `GameObs` records, the per-minute rate
arithmetic and the context multipliers become exact rational functions, and the
Poisson market-analysis step becomes real-valued functions built from
`Real.exp`.  Each definition mirrors one expression of the source file, cited
by line number.
-/

/-- One row of the player game log after `get_player_stats` renames columns
(`src/app.py` line 78): the minutes played and the value of the selected
statistical category for that game.  Rows are ordered most-recent first, as the
NBA game-log endpoint returns them. -/
structure GameObs where
  minutes : ℚ
  stat : ℚ
deriving DecidableEq, Repr

/-- The low-minute filter `log = log[log['minutes'] > 5]` of `get_player_stats`
(`src/app.py` line 79): only games with strictly more than 5 minutes survive. -/
def qualifying (log : List GameObs) : List GameObs :=
  log.filter (fun g => 5 < g.minutes)

/-- The per-minute rate `log[cat] / log['minutes'].replace(0, 1)` of
`get_player_stats` (`src/app.py` line 82): the stat divided by the minutes,
with a literal zero-minute entry replaced by 1 before dividing. -/
def per_min (g : GameObs) : ℚ :=
  g.stat / (if g.minutes = 0 then 1 else g.minutes)

/-- pandas `Series.mean()`: the sum divided by the length.  (On an empty
series pandas yields NaN; every use in the source is guarded by
`if not p_df.empty`, and this embedding returns 0 there since division by the
length 0 is 0 in `ℚ`.) -/
def listMean (xs : List ℚ) : ℚ := xs.sum / xs.length

/-- `season_rate = p_df[f'{stat_cat}_per_min'].mean()` (`src/app.py` line 173):
the mean per-minute rate over the whole qualifying sample. -/
def season_rate (log : List GameObs) : ℚ :=
  listMean ((qualifying log).map per_min)

/-- `last5_rate = p_df.head(5)[f'{stat_cat}_per_min'].mean()` (`src/app.py`
line 174): the mean per-minute rate over the 5 most recent qualifying games. -/
def last5_rate (log : List GameObs) : ℚ :=
  listMean (((qualifying log).take 5).map per_min)

/-- `weighted_rate = (last5_rate * recency_weight) + (season_rate * (1 -
recency_weight))` (`src/app.py` line 175): the blended posterior per-minute
rate, `w` being the recency-bias slider value. -/
def weighted_rate (log : List GameObs) (w : ℚ) : ℚ :=
  last5_rate log * w + season_rate log * (1 - w)

/-- `p_df[stat_cat].mean()` (`src/app.py` lines 187 and 253): the raw season
average of the selected category over the qualifying sample. -/
def season_avg (log : List GameObs) : ℚ :=
  listMean ((qualifying log).map GameObs.stat)

/-- Substring test on character lists, embedding Python's `'Guard' in pos`
membership test of `calculate_dvp` (`src/app.py` line 93): `leadsWith n h`
holds when `n` is an initial segment of `h`. -/
def leadsWith : List Char → List Char → Bool
  | [], _ => true
  | _ :: _, [] => false
  | a :: as, b :: bs => a == b && leadsWith as bs

/-- `containsSeq n h` holds when `n` occurs contiguously inside `h`;
together with `leadsWith` this is Python's `in` on strings. -/
def containsSeq (needle : List Char) : List Char → Bool
  | [] => leadsWith needle []
  | c :: rest => leadsWith needle (c :: rest) || containsSeq needle rest

/-- `pos_key = 'Guard' if 'Guard' in pos else ('Center' if 'Center' in pos
else 'Forward')` (`src/app.py` line 93). -/
def pos_key (pos : String) : String :=
  if containsSeq "Guard".toList pos.toList then "Guard"
  else if containsSeq "Center".toList pos.toList then "Center"
  else "Forward"

/-- The literal `dvp_map` dictionary of `calculate_dvp` (`src/app.py` lines
88-92) together with the `.get(opp_abbr, 1.0)` default lookup. -/
def dvp_lookup (key opp : String) : ℚ :=
  if key = "Center" then
    if opp = "OKC" then 82/100 else if opp = "MIN" then 85/100
    else if opp = "WAS" then 118/100 else if opp = "UTA" then 112/100
    else if opp = "CHA" then 115/100 else if opp = "GSW" then 95/100 else 1
  else if key = "Guard" then
    if opp = "BOS" then 88/100 else if opp = "OKC" then 84/100
    else if opp = "CHA" then 114/100 else if opp = "WAS" then 110/100
    else if opp = "DET" then 108/100 else if opp = "ORL" then 90/100 else 1
  else
    if opp = "NYK" then 89/100 else if opp = "MIA" then 91/100
    else if opp = "DET" then 109/100 else if opp = "HOU" then 92/100
    else if opp = "SAS" then 105/100 else 1

/-- `calculate_dvp(pos, opp_abbr)` (`src/app.py` lines 87-94): the
defense-versus-position multiplier from the hard-coded table, defaulting to
1.0 for unlisted (bucket, opponent) pairs. -/
def calculate_dvp (pos opp : String) : ℚ :=
  dvp_lookup (pos_key pos) opp

/-- `pace_mult = ((t_pace + o_pace) / 2) / lg_avg_pace` (`src/app.py` line
180): the raw pace ratio, with no clamping. -/
def pace_mult (t_pace o_pace lg_avg_pace : ℚ) : ℚ :=
  ((t_pace + o_pace) / 2) / lg_avg_pace

/-- `st_lambda = weighted_rate * proj_minutes * dvp_mult * pace_mult *
usage_boost` (`src/app.py` line 182; identically `proj` at line 252): the
final projected expected value. -/
def st_lambda (log : List GameObs) (w proj_minutes dvp pace usage : ℚ) : ℚ :=
  weighted_rate log w * proj_minutes * dvp * pace * usage

/-- Modelled from the spec: the total minutes across the observed sample,
the input of the spec's Reliability Damper.  No such quantity is computed
anywhere in the source. -/
def total_minutes (log : List GameObs) : ℚ :=
  (log.map GameObs.minutes).sum

/-- Modelled from the spec: the Rate Estimator of spec section 4.1, the
precision-weighted combination `(w_prior*prior_mean + w_evidence*
evidence_mean) / (w_prior + w_evidence)` with `w = 1/variance`, the sample
variance floored at epsilon = 0.01, prior statistics over the full qualifying
sample and evidence statistics over the 5 most recent games.  Stated for
comparison with the source's `weighted_rate`. -/
def sample_var (xs : List ℚ) : ℚ :=
  (xs.map (fun x => (x - listMean xs) ^ 2)).sum / ((xs.length : ℚ) - 1)

def floored_var (xs : List ℚ) : ℚ := max (sample_var xs) (1/100)

def spec_posterior (log : List GameObs) : ℚ :=
  let rates := (qualifying log).map per_min
  let evid := rates.take 5
  let wP := 1 / floored_var rates
  let wE := 1 / floored_var evid
  (wP * listMean rates + wE * listMean evid) / (wP + wE)

/-- The outcome of the single-player execution path (`src/app.py` lines
172-218): when the filtered game log `p_df` is empty the whole block under
`if not p_df.empty:` is skipped and nothing is rendered; otherwise the
projection metrics are rendered. -/
inductive SingleResult where
  | rendered (lam : ℚ)
  | skipped
deriving DecidableEq, Repr

/-- The guard `if not p_df.empty:` (`src/app.py` line 172) followed by the
projection computation (lines 173-187): skip silently on an empty filtered
log, otherwise render the projection `st_lambda`. -/
def single_player (log : List GameObs) (w proj_minutes dvp pace usage : ℚ) :
    SingleResult :=
  if qualifying log = [] then SingleResult.skipped
  else SingleResult.rendered (st_lambda log w proj_minutes dvp pace usage)

/-- Modelled from the spec: the error behaviour of spec sections 4.1 and 7,
`InsufficientDataError` raised on zero qualifying observations, otherwise the
projection.  No error type exists in the source; stated for comparison with
`single_player`. -/
def spec_single (log : List GameObs) (w proj_minutes dvp pace usage : ℚ) :
    Except String ℚ :=
  if qualifying log = [] then Except.error "InsufficientDataError"
  else Except.ok (st_lambda log w proj_minutes dvp pace usage)

/-- One row of the team roster as iterated by the scanner (`src/app.py`
lines 233-241): the player's name and position.  The stats lookup by player
id is abstracted as a function from the entry. -/
structure RosterEntry where
  name : String
  pos : String
deriving DecidableEq, Repr

/-- One appended dictionary of `scan_results.append({...})` (`src/app.py`
lines 255-259).  The display rounding `round(x, 1)` is presentational and
omitted; the claims concern which rows exist. -/
structure ScanRow where
  player : String
  pos : String
  proj : ℚ
  seasonAvg : ℚ
  l5Avg : ℚ
  edgeVal : ℚ
deriving DecidableEq, Repr

/-- The body of the scanner loop for one non-skipped roster entry
(`src/app.py` lines 244-259). -/
def scan_row (r : RosterEntry) (log : List GameObs)
    (w proj_minutes pace usage : ℚ) (opp : String) : ScanRow :=
  let proj := st_lambda log w proj_minutes (calculate_dvp r.pos opp) pace usage
  { player := r.name, pos := r.pos, proj := proj,
    seasonAvg := season_avg log,
    l5Avg := listMean (((qualifying log).take 5).map GameObs.stat),
    edgeVal := proj - season_avg log }

/-- The scanner loop `for index, row in roster.iterrows():` (`src/app.py`
lines 232-259): an entry whose name is in the injury list is skipped by
`continue` (line 237-238); an entry with an empty filtered log contributes
nothing (`if not p_df.empty:` line 243); every other entry appends one row. -/
def scan_results (roster : List RosterEntry) (stats : RosterEntry → List GameObs)
    (injury : List String) (w proj_minutes pace usage : ℚ) (opp : String) :
    List ScanRow :=
  match roster with
  | [] => []
  | r :: rest =>
    if r.name ∈ injury then
      scan_results rest stats injury w proj_minutes pace usage opp
    else if qualifying (stats r) = [] then
      scan_results rest stats injury w proj_minutes pace usage opp
    else
      scan_row r (stats r) w proj_minutes pace usage opp ::
        scan_results rest stats injury w proj_minutes pace usage opp

/-- The fixed payout parameter `b = 0.90` of the Kelly block (`src/app.py`
line 198): the net fractional payout of the assumed market price. -/
noncomputable def payout_b : ℝ := 90/100

/-- `kelly_f = max(0, (win_p - q/b))` with `q = 1 - win_p` (`src/app.py`
lines 199-200), as a function of the model probability `p`. -/
noncomputable def kelly_f (p : ℝ) : ℝ := max 0 (p - (1 - p) / payout_b)

/-- `stake = total_purse * kelly_f * kelly_mult` (`src/app.py` line 201). -/
noncomputable def stake (purse p mult : ℝ) : ℝ := purse * kelly_f p * mult

/-- The market implied probability of the code's fixed price: a bet paying
net `b` per unit breaks even at probability `1/(1+b)`.  For `b = 0.90` this
is `10/19`. -/
noncomputable def market_implied : ℝ := 1 / (1 + payout_b)

/-- The edge of the claim: model probability minus market implied
probability. -/
noncomputable def edge (p : ℝ) : ℝ := p - market_implied

/-- The Poisson cumulative distribution function at a natural-number cutoff:
`P(X ≤ k) = exp(-lam) * Σ_{i≤k} lam^i / i!`. -/
noncomputable def poissonCdfNat (k : ℕ) (lam : ℝ) : ℝ :=
  Real.exp (-lam) * ∑ i in Finset.range (k + 1), lam ^ i / (Nat.factorial i)

/-- scipy's `poisson.cdf(k, lam)` at a real cutoff `k`: zero for `k < 0`,
otherwise the CDF at `floor(k)`.  This is the convention the call
`poisson.cdf(curr_line - 0.5, st_lambda)` at `src/app.py` line 195 relies
on. -/
noncomputable def scipy_poisson_cdf (k lam : ℝ) : ℝ :=
  if k < 0 then 0 else poissonCdfNat (Int.toNat ⌊k⌋) lam

/-- The Poisson CDF at an integer cutoff, as the spec's
`PoissonCDF(floor(L - 0.5), lambda)` reads mathematically: zero below zero. -/
noncomputable def poissonCdfInt (k : ℤ) (lam : ℝ) : ℝ :=
  if 0 ≤ k then poissonCdfNat k.toNat lam else 0

/-- `win_p = (1 - poisson.cdf(curr_line - 0.5, st_lambda))` (`src/app.py`
line 195): the modelled probability of clearing the market line. -/
noncomputable def win_p (line lam : ℝ) : ℝ :=
  1 - scipy_poisson_cdf (line - 1/2) lam

/-- Demo log for C6: every qualifying game has per-minute rate 2/5, so the
recent and season rates agree. -/
def c6_demo : List GameObs :=
  [⟨30, 12⟩, ⟨28, 56/5⟩, ⟨30, 12⟩, ⟨30, 12⟩, ⟨30, 12⟩, ⟨30, 12⟩]

/-- Demo logs for C4: identical per-minute rate 2/5 throughout, but total
minutes 50 on the first and 200 on the second. -/
def c4_log_fifty : List GameObs := [⟨25, 10⟩, ⟨25, 10⟩]

def c4_log_twohundred : List GameObs :=
  [⟨50, 20⟩, ⟨50, 20⟩, ⟨50, 20⟩, ⟨50, 20⟩]

/-- Demo log for C5: one qualifying game at rate 1 per minute. -/
def c5_demo_log : List GameObs := [⟨25, 25⟩]

/-- Demo log for C3: eight qualifying games whose per-minute rates alternate
0 and 2, most recent first. -/
def c3_demo_log : List GameObs :=
  [⟨25, 0⟩, ⟨25, 50⟩, ⟨25, 0⟩, ⟨25, 50⟩, ⟨25, 0⟩, ⟨25, 50⟩, ⟨25, 0⟩, ⟨25, 50⟩]

/-- Demo log for C8: two games, one of 3 minutes and one of 0 minutes, so no
game survives the `minutes > 5` filter. -/
def c8_demo_log : List GameObs := [⟨3, 10⟩, ⟨0, 2⟩]

/-- Demo data for C10: a qualifying game before and after a 4-minute game. -/
def c10_pre : List GameObs := [⟨30, 10⟩]

def c10_post : List GameObs := [⟨20, 8⟩]

def c10_low : GameObs := ⟨4, 20⟩

/-- Demo data for C9: a roster holding one injured and one healthy player,
the injury list of `get_automated_injury_list` (`src/app.py` line 33), and a
stats lookup giving each a nonempty qualifying log. -/
def c9_roster : List RosterEntry :=
  [⟨"Ty Jerome", "Guard"⟩, ⟨"Jalen Green", "Guard"⟩]

def c9_injury : List String :=
  ["Ty Jerome", "Ja Morant", "Zach Edey", "Scotty Pippen Jr.",
   "Brandon Clarke", "Jalen Suggs"]

def c9_stats : RosterEntry → List GameObs := fun r =>
  if r.name = "Jalen Green" then [⟨30, 12⟩] else [⟨35, 20⟩]

/-- C6: if the recent-5 per-minute rate equals the season-long per-minute
rate exactly, then for every recency weight the blended posterior rate equals
that common rate. -/
theorem c6_blending_idempotence (log : List GameObs) (w : ℚ)
    (h : last5_rate log = season_rate log) :
    weighted_rate log w = season_rate log := by
  unfold weighted_rate
  rw [h]; ring

/-- Witness for C6 at a concrete log with common rate 2/5 and weight 3/10. -/
theorem c6_blending_idempotence_witness :
    last5_rate c6_demo = season_rate c6_demo ∧
      weighted_rate c6_demo (3/10) = season_rate c6_demo :=
  ⟨by norm_num [c6_demo, last5_rate, season_rate, qualifying, listMean,
      per_min, List.filter],
   c6_blending_idempotence c6_demo (3/10)
     (by norm_num [c6_demo, last5_rate, season_rate, qualifying, listMean,
        per_min, List.filter])⟩

/-- C2: whenever the edge (model probability minus the market implied
probability of the code's fixed price `b = 0.90`) is nonpositive, the
recommended stake is exactly 0, for every purse and Kelly fraction. -/
theorem c2_nonpositive_edge_zero_stake (p purse mult : ℝ) (h : edge p ≤ 0) :
    stake purse p mult = 0 := by
  have hp : p ≤ 10/19 := by
    have h' := h
    rw [edge, market_implied, payout_b] at h'
    norm_num at h'
    linarith
  have hk : kelly_f p = 0 := by
    unfold kelly_f payout_b
    apply max_eq_left
    rw [sub_nonpos, le_div_iff₀ (by norm_num : (0:ℝ) < 90/100)]
    linarith
  unfold stake
  rw [hk]; ring

/-- Witness for C2 at model probability 1/2 (edge -1/38 ≤ 0), purse 1000
and Kelly fraction 1/4. -/
theorem c2_nonpositive_edge_zero_stake_witness :
    edge (1/2) ≤ 0 ∧ stake 1000 (1/2) (1/4) = 0 :=
  ⟨by norm_num [edge, market_implied, payout_b],
   c2_nonpositive_edge_zero_stake (1/2) 1000 (1/4)
     (by norm_num [edge, market_implied, payout_b])⟩

/-- C10: a game of at most 5 minutes inserted anywhere in the log changes
neither the season rate, the recent-5 rate, the blended rate, nor the
projection: the `minutes > 5` filter removes it before any rate is
computed. -/
theorem c10_low_minute_games_excluded (pre post : List GameObs) (g : GameObs)
    (hg : g.minutes ≤ 5) (w m dvp pace usage : ℚ) :
    season_rate (pre ++ g :: post) = season_rate (pre ++ post) ∧
    last5_rate (pre ++ g :: post) = last5_rate (pre ++ post) ∧
    weighted_rate (pre ++ g :: post) w = weighted_rate (pre ++ post) w ∧
    st_lambda (pre ++ g :: post) w m dvp pace usage =
      st_lambda (pre ++ post) w m dvp pace usage := by
  have hng : ¬ (5 : ℚ) < g.minutes := not_lt.mpr hg
  have hq : qualifying (pre ++ g :: post) = qualifying (pre ++ post) := by
    unfold qualifying
    simp [List.filter_append, hng]
  refine ⟨?_, ?_, ?_, ?_⟩ <;>
    simp only [st_lambda, weighted_rate, season_rate, last5_rate, hq]

/-- Witness for C10: a 4-minute, 20-point game inserted between two
qualifying games leaves the projection unchanged. -/
theorem c10_low_minute_games_excluded_witness :
    c10_low.minutes ≤ 5 ∧
      st_lambda (c10_pre ++ c10_low :: c10_post) (3/10) 32 1 1 1 =
        st_lambda (c10_pre ++ c10_post) (3/10) 32 1 1 1 :=
  ⟨by norm_num [c10_low],
   (c10_low_minute_games_excluded c10_pre c10_post c10_low
     (by norm_num [c10_low]) (3/10) 32 1 1 1).2.2.2⟩

/-- Counterexample for C4: two logs with the same per-minute rate but total
minutes 50 and 200 produce the very same lambda, not a halved one — no
reliability factor exists in the source. -/
theorem c4_counterexample :
    total_minutes c4_log_fifty = 50 ∧
    total_minutes c4_log_twohundred = 200 ∧
    st_lambda c4_log_fifty (3/10) 32 1 1 1 =
      st_lambda c4_log_twohundred (3/10) 32 1 1 1 ∧
    st_lambda c4_log_fifty (3/10) 32 1 1 1 ≠
      (1/2) * st_lambda c4_log_twohundred (3/10) 32 1 1 1 := by
  refine ⟨?_, ?_, ?_, ?_⟩ <;>
    norm_num [total_minutes, c4_log_fifty, c4_log_twohundred, st_lambda,
      weighted_rate, season_rate, last5_rate, qualifying, listMean, per_min,
      List.filter]

/-- C4 amended: the code applies no total-minutes dampener; the lambda is a
function of the blended per-minute rate and the context factors alone, so
profiles with equal blended rates get equal lambdas whatever their total
minutes. -/
theorem c4_lambda_ignores_total_minutes (log1 log2 : List GameObs)
    (w m dvp pace usage : ℚ)
    (h : weighted_rate log1 w = weighted_rate log2 w) :
    st_lambda log1 w m dvp pace usage = st_lambda log2 w m dvp pace usage := by
  unfold st_lambda
  rw [h]

/-- Witness for the amended C4 at the 50-minute and 200-minute demo logs. -/
theorem c4_lambda_ignores_total_minutes_witness :
    weighted_rate c4_log_fifty (3/10) = weighted_rate c4_log_twohundred (3/10) ∧
      st_lambda c4_log_fifty (3/10) 32 1 1 1 =
        st_lambda c4_log_twohundred (3/10) 32 1 1 1 :=
  ⟨by norm_num [c4_log_fifty, c4_log_twohundred, weighted_rate, season_rate,
      last5_rate, qualifying, listMean, per_min, List.filter],
   c4_lambda_ignores_total_minutes c4_log_fifty c4_log_twohundred (3/10) 32 1 1 1
     (by norm_num [c4_log_fifty, c4_log_twohundred, weighted_rate, season_rate,
        last5_rate, qualifying, listMean, per_min, List.filter])⟩

/-- Counterexample for C8: on a log whose games all fail the minutes filter,
the single-player path silently skips — it renders nothing and raises
nothing — where the spec demands a surfaced `InsufficientDataError`
(`spec_single` shows the demanded behaviour on the same input). -/
theorem c8_counterexample :
    qualifying c8_demo_log = [] ∧
    single_player c8_demo_log (3/10) 32 1 1 1 = SingleResult.skipped ∧
    spec_single c8_demo_log (3/10) 32 1 1 1 =
      Except.error "InsufficientDataError" := by
  have hq : qualifying c8_demo_log = [] := by
    norm_num [qualifying, c8_demo_log, List.filter]
  exact ⟨hq, by rw [single_player, if_pos hq], by rw [spec_single, if_pos hq]⟩

/-- C8 amended: with zero qualifying observations the engine silently skips
the whole computation behind the `if not p_df.empty:` guard; no
`InsufficientDataError` (nor any other error) exists in the code. -/
theorem c8_zero_observations_silent_skip (log : List GameObs)
    (w m dvp pace usage : ℚ) (h : qualifying log = []) :
    single_player log w m dvp pace usage = SingleResult.skipped := by
  rw [single_player, if_pos h]

/-- Witness for the amended C8 at the demo log of sub-6-minute games. -/
theorem c8_zero_observations_silent_skip_witness :
    qualifying c8_demo_log = [] ∧
      single_player c8_demo_log (3/10) 32 1 1 1 = SingleResult.skipped :=
  ⟨by norm_num [qualifying, c8_demo_log, List.filter],
   c8_zero_observations_silent_skip c8_demo_log (3/10) 32 1 1 1
     (by norm_num [qualifying, c8_demo_log, List.filter])⟩

/-- Counterexample for C5: the pace multiplier is the raw pace ratio and is
never clamped — with team and opponent pace 140 against league average 99 it
equals 140/99 > 1.3, and this unclamped value multiplies straight into the
lambda, pushing it beyond what any factor capped at 1.3 could give. -/
theorem c5_counterexample :
    (13/10 : ℚ) < pace_mult 140 140 99 ∧
    st_lambda c5_demo_log (3/10) 32 1 (pace_mult 140 140 99) 1 =
      32 * (140/99) ∧
    32 * (13/10 : ℚ) <
      st_lambda c5_demo_log (3/10) 32 1 (pace_mult 140 140 99) 1 := by
  refine ⟨?_, ?_, ?_⟩ <;>
    norm_num [pace_mult, st_lambda, c5_demo_log, weighted_rate, season_rate,
      last5_rate, qualifying, listMean, per_min, List.filter]

/-- C5 amended: of the claimed factors only DvP, pace and the usage slider
exist; the DvP table keeps every value inside [0.7, 1.3] by construction,
but nothing is clamped — the pace multiplier is the raw ratio and exceeds
1.3 for sufficiently fast teams. -/
theorem c5_dvp_bounded_pace_unclamped :
    (∀ pos opp : String,
      7/10 ≤ calculate_dvp pos opp ∧ calculate_dvp pos opp ≤ 13/10) ∧
    (∃ t o avg : ℚ, 0 < avg ∧ 13/10 < pace_mult t o avg) := by
  constructor
  · intro pos opp
    unfold calculate_dvp dvp_lookup
    constructor <;> split_ifs <;> norm_num
  · exact ⟨140, 140, 99, by norm_num, by norm_num [pace_mult]⟩

/-- Counterexample for C3: on a concrete 8-game profile the code's blend (a
fixed convex combination under the recency slider, here 3/10) gives 47/50,
while the spec's precision-weighted combination gives 37/41 — the Rate
Estimator is not inverse-variance weighted. -/
theorem c3_counterexample :
    weighted_rate c3_demo_log (3/10) = 47/50 ∧
    spec_posterior c3_demo_log = 37/41 ∧
    weighted_rate c3_demo_log (3/10) ≠ spec_posterior c3_demo_log := by
  refine ⟨?_, ?_, ?_⟩ <;>
    norm_num [c3_demo_log, weighted_rate, season_rate, last5_rate,
      spec_posterior, floored_var, sample_var, qualifying, listMean, per_min,
      List.filter]

/-- C3 amended: the Rate Estimator's output is the weighted combination
`(w_evidence*evidence_mean + w_prior*prior_mean) / (w_evidence + w_prior)`
with the constant weights `w_evidence = recency_weight` and `w_prior =
1 - recency_weight`, taken over the recent-5 and full qualifying samples;
the weights are the slider values, not reciprocals of sample variances. -/
theorem c3_fixed_weight_blend (log : List GameObs) (w : ℚ) :
    weighted_rate log w =
      (w * last5_rate log + (1 - w) * season_rate log) / (w + (1 - w)) := by
  have h1 : w + (1 - w) = 1 := by ring
  rw [weighted_rate, h1, div_one]
  ring

/-- C9: no scan row carries a name on the injury list, and every healthy
roster entry with a nonempty qualifying log contributes its row — the
`continue` of the automated injury filter removes exactly the injured. -/
theorem c9_injured_players_skipped (roster : List RosterEntry)
    (stats : RosterEntry → List GameObs) (injury : List String)
    (w m pace usage : ℚ) (opp : String) :
    (∀ row ∈ scan_results roster stats injury w m pace usage opp,
      row.player ∉ injury) ∧
    (∀ r ∈ roster, r.name ∉ injury → qualifying (stats r) ≠ [] →
      scan_row r (stats r) w m pace usage opp ∈
        scan_results roster stats injury w m pace usage opp) := by
  induction roster with
  | nil => exact ⟨fun row h => absurd h (List.not_mem_nil row), fun r h => absurd h (List.not_mem_nil r)⟩
  | cons r rest ih =>
    constructor
    · intro row hrow
      rw [scan_results] at hrow
      by_cases h1 : r.name ∈ injury
      · rw [if_pos h1] at hrow
        exact ih.1 row hrow
      · rw [if_neg h1] at hrow
        by_cases h2 : qualifying (stats r) = []
        · rw [if_pos h2] at hrow
          exact ih.1 row hrow
        · rw [if_neg h2] at hrow
          rcases List.mem_cons.mp hrow with h | h
          · rw [h]
            exact h1
          · exact ih.1 row h
    · intro x hx hni hne
      rcases List.mem_cons.mp hx with hxr | hxrest
      · subst hxr
        rw [scan_results, if_neg hni, if_neg hne]
        exact List.mem_cons_self _ _
      · rw [scan_results]
        by_cases h1 : r.name ∈ injury
        · rw [if_pos h1]
          exact ih.2 x hxrest hni hne
        · rw [if_neg h1]
          by_cases h2 : qualifying (stats r) = []
          · rw [if_pos h2]
            exact ih.2 x hxrest hni hne
          · rw [if_neg h2]
            exact List.mem_cons_of_mem _ (ih.2 x hxrest hni hne)

/-- Witness for C9: on a two-man roster with Ty Jerome injured, the healthy
player's row is present in the scan results. -/
theorem c9_injured_players_skipped_witness :
    scan_row ⟨"Jalen Green", "Guard"⟩ (c9_stats ⟨"Jalen Green", "Guard"⟩)
        (3/10) 32 1 1 "BOS" ∈
      scan_results c9_roster c9_stats c9_injury (3/10) 32 1 1 "BOS" :=
  (c9_injured_players_skipped c9_roster c9_stats c9_injury
      (3/10) 32 1 1 "BOS").2 ⟨"Jalen Green", "Guard"⟩
    (by norm_num [c9_roster])
    (by simp [c9_injury])
    (by norm_num [c9_stats, qualifying, List.filter])

/-- The 23-term partial exponential sum at 25, evaluated exactly. -/
theorem poisson_sum_23 :
    (∑ i in Finset.range 23, (25:ℝ) ^ i / (Nat.factorial i)) =
      2418740236985870559407648389 / 105788303790833664 := by
  have hf13 : Nat.factorial 13 = 6227020800 := rfl
  have hf14 : Nat.factorial 14 = 87178291200 := rfl
  have hf15 : Nat.factorial 15 = 1307674368000 := rfl
  have hf16 : Nat.factorial 16 = 20922789888000 := rfl
  have hf17 : Nat.factorial 17 = 355687428096000 := rfl
  have hf18 : Nat.factorial 18 = 6402373705728000 := rfl
  have hf19 : Nat.factorial 19 = 121645100408832000 := rfl
  have hf20 : Nat.factorial 20 = 2432902008176640000 := rfl
  have hf21 : Nat.factorial 21 = 51090942171709440000 := rfl
  have hf22 : Nat.factorial 22 = 1124000727777607680000 := rfl
  simp only [Finset.sum_range_succ, Finset.sum_range_zero,
    hf13, hf14, hf15, hf16, hf17, hf18, hf19, hf20, hf21, hf22]
  norm_num [Nat.factorial]

/-- `exp (-25)` as the inverse 25th power of `exp 1`. -/
theorem exp_neg_twentyfive : Real.exp (-(25:ℝ)) = (Real.exp 1 ^ 25)⁻¹ := by
  rw [show (-(25:ℝ)) = (25:ℕ) * (-1) by norm_num, Real.exp_nat_mul,
    Real.exp_neg, inv_pow]

/-- Rigorous enclosure of the Poisson CDF at cutoff 22, rate 25: it lies in
(0.317, 0.318), so the over-probability lies in (0.682, 0.683). -/
theorem poisson_cdf_22_25_bounds :
    317/1000 < poissonCdfNat 22 25 ∧ poissonCdfNat 22 25 < 318/1000 := by
  have hEpos : (0:ℝ) < Real.exp 1 ^ 25 := pow_pos (Real.exp_pos 1) 25
  have hcdf : poissonCdfNat 22 25 =
      ((2418740236985870559407648389:ℝ) / 105788303790833664) /
        (Real.exp 1 ^ 25) := by
    unfold poissonCdfNat
    rw [show (22:ℕ) + 1 = 23 from rfl, poisson_sum_23, exp_neg_twentyfive,
      inv_mul_eq_div]
  have hub25 : Real.exp 1 ^ 25 < ((2.7182818286:ℝ)) ^ 25 :=
    pow_lt_pow_left₀ Real.exp_one_lt_d9 (le_of_lt (Real.exp_pos 1))
      (by norm_num)
  have hlb25 : ((2.7182818283:ℝ)) ^ 25 < Real.exp 1 ^ 25 :=
    pow_lt_pow_left₀ Real.exp_one_gt_d9 (by norm_num) (by norm_num)
  constructor
  · rw [hcdf, lt_div_iff₀ hEpos]
    calc (317:ℝ)/1000 * (Real.exp 1 ^ 25)
        < 317/1000 * ((2.7182818286:ℝ)) ^ 25 :=
          mul_lt_mul_of_pos_left hub25 (by norm_num)
      _ < 2418740236985870559407648389 / 105788303790833664 := by norm_num
  · rw [hcdf, div_lt_iff₀ hEpos]
    calc ((2418740236985870559407648389:ℝ) / 105788303790833664)
        < 318/1000 * ((2.7182818283:ℝ)) ^ 25 := by norm_num
      _ < 318/1000 * (Real.exp 1 ^ 25) :=
          mul_lt_mul_of_pos_left hlb25 (by norm_num)

/-- The code's win probability at line 22.5 and lambda 25 hits exactly the
Poisson CDF at cutoff 22: `floor(22.5 - 0.5) = 22`. -/
theorem win_p_at_half_line : win_p (45/2) 25 = 1 - poissonCdfNat 22 25 := by
  unfold win_p scipy_poisson_cdf
  have h1 : ¬ ((45:ℝ)/2 - 1/2 < 0) := by norm_num
  have h2 : ⌊(45:ℝ)/2 - 1/2⌋ = 22 := by
    have h3 : (45:ℝ)/2 - 1/2 = ((22:ℤ):ℝ) := by norm_num
    rw [h3, Int.floor_intCast]
  rw [if_neg h1, h2]
  rfl

/-- C1: for every lambda > 0 and every threshold L the code's win
probability equals `1 - PoissonCDF(floor(L - 0.5), lambda)`; at lambda 25
and line 22.5 it equals `1 - PoissonCDF(22, 25)`, which lies within the
spec's ±2% tolerance of 0.670. -/
theorem c1_distribution_model :
    (∀ lam : ℝ, 0 < lam → ∀ L : ℝ,
      win_p L lam = 1 - poissonCdfInt ⌊L - 1/2⌋ lam) ∧
    win_p (45/2) 25 = 1 - poissonCdfNat 22 25 ∧
    |win_p (45/2) 25 - 67/100| < 67/100 * (2/100) := by
  refine ⟨fun lam _ L => ?_, win_p_at_half_line, ?_⟩
  · unfold win_p scipy_poisson_cdf poissonCdfInt
    by_cases h : L - 1/2 < 0
    · have h2 : ¬ (0:ℤ) ≤ ⌊L - 1/2⌋ := by
        rw [Int.floor_nonneg]; exact not_le.mpr h
      rw [if_pos h, if_neg h2]
    · have h2 : (0:ℤ) ≤ ⌊L - 1/2⌋ := by
        rw [Int.floor_nonneg]; exact not_lt.mp h
      rw [if_neg h, if_pos h2]
  · have hb := poisson_cdf_22_25_bounds
    rw [win_p_at_half_line, abs_sub_lt_iff]
    constructor <;> [linarith [hb.1]; linarith [hb.2]]

/-- Witness for C1 at lambda 25 and line 22.5. -/
theorem c1_distribution_model_witness :
    (0:ℝ) < 25 ∧ win_p (45/2) 25 = 1 - poissonCdfInt ⌊(45:ℝ)/2 - 1/2⌋ 25 :=
  ⟨by norm_num, c1_distribution_model.1 25 (by norm_num) (45/2)⟩
